import Mathlib

/-!
Shallow embedding of the pxrs Paradox-table decoder (src/convert.rs,
src/parse.rs, src/types.rs) and proofs about the specification claims.

Conventions of the embedding:
* Machine bytes are natural numbers below 256; byte buffers are `List Nat`.
* An unsigned integer of width `w` read from memory on the little-endian
  target is the little-endian value of its first `w` bytes.
* Rust functions returning `Result` become `Except`; out-parameters
  (`&mut` arguments) are threaded explicitly: the function receives the
  current value of the out-parameter and returns the pair
  (result, value of the out-parameter after the call).
* Statements that can panic at runtime (out-of-bounds slice indexing,
  `unwrap` on a failing conversion) are modelled by a distinguished
  `crash` outcome where a claim depends on them.
-/

namespace Pxrs

/-- Byte `i` of the little-endian representation of `n` (`n.to_le_bytes()[i]`). -/
def byteAt (n i : Nat) : Nat := n / 256 ^ i % 256

/-- The little-endian value of a byte list. -/
def leVal (bs : List Nat) : Nat := bs.foldr (fun b acc => b + 256 * acc) 0

/-- The eight bytes of `number.to_le_bytes()` for a `u64` value. -/
def toLeBytes8 (n : Nat) : List Nat :=
  [byteAt n 0, byteAt n 1, byteAt n 2, byteAt n 3,
   byteAt n 4, byteAt n 5, byteAt n 6, byteAt n 7]

/-- src/convert.rs `copy_from_be`: copies `len` bytes of `src` into a zeroed
8-byte scratch buffer and reinterprets it as the destination type.  Despite
its name it performs no byte-order reversal, so on the little-endian target
the value read is the little-endian value of the first `len` bytes.  All
call sites in convert.rs pass `len ∈ {1,2,4,8}` and an 8-byte source, so the
panicking bounds cases are unreachable there. -/
def copy_from_be (src : List Nat) (len : Nat) : Nat := leVal (src.take len)

/-- src/convert.rs and src/parse.rs `copy_from_le`: byte-for-byte identical
to `copy_from_be` (neither helper swaps byte order). -/
def copy_from_le (src : List Nat) (len : Nat) : Nat := leVal (src.take len)

/-- src/convert.rs `fix_sign`: clears the top bit of byte `len - 1`. -/
def fix_sign (dst : List Nat) (len : Nat) : List Nat :=
  dst.set (len - 1) (dst.getD (len - 1) 0 &&& 0x7f)

/-- src/convert.rs `set_sign`: sets the top bit of byte `len - 1`. -/
def set_sign (dst : List Nat) (len : Nat) : List Nat :=
  dst.set (len - 1) (dst.getD (len - 1) 0 ||| 0x80)

/-! Field-type and file-type constants from src/types.rs. -/

def PX_FIELD_TYPE_ALPHA : Nat := 0x01
def PX_FIELD_TYPE_DATE : Nat := 0x02
def PX_FIELD_TYPE_SHORT_INT : Nat := 0x03
def PX_FIELD_TYPE_LONG_INT : Nat := 0x04
def PX_FIELD_TYPE_CURRENCY : Nat := 0x05
def PX_FIELD_TYPE_NUMBER : Nat := 0x06
def PX_FIELD_TYPE_LOGICAL : Nat := 0x09
def PX_FIELD_TYPE_MEMO_BLOB : Nat := 0x0c
def PX_FIELD_TYPE_BIN_BLOB : Nat := 0x0d
def PX_FIELD_TYPE_GRAPHIC : Nat := 0x10
def PX_FIELD_TYPE_TIME : Nat := 0x14
def PX_FIELD_TYPE_TIMESTAMP : Nat := 0x15
def PX_FIELD_TYPE_INCREMENTAL : Nat := 0x16

/-- src/convert.rs `px_to_long`.  `ret` is the value of the `&mut u64`
out-parameter before the call; the second component of the result is its
value after the call (the Rust writes `*ret = retval` only on the success
path, after the `match`).

Faithfulness notes, visible in the Rust source:
* `s[0]` is the lowest byte of the `u64` argument `number`.
* `fix_sign(&mut retval.to_le_bytes(), len)` and
  `set_sign(&mut retval.to_le_bytes(), len)` mutate a temporary array
  returned by `to_le_bytes()` and never write back to `retval`; the
  discarded `let` bindings below mirror those no-op calls. -/
def px_to_long (number : Nat) (ret : Nat) (field_type : Nat) :
    Except String Unit × Nat :=
  let s := toLeBytes8 number
  let _d := toLeBytes8 0
  if field_type = PX_FIELD_TYPE_LOGICAL then
    let retval := copy_from_be s 1
    if s.headD 0 &&& 0x80 ≠ 0 then
      let _tmp := fix_sign (toLeBytes8 retval) 1
      (Except.ok (), retval)
    else if retval = 0 then (Except.error "Value is null", ret)
    else
      let _tmp := set_sign (toLeBytes8 retval) 1
      (Except.ok (), retval)
  else if field_type = PX_FIELD_TYPE_SHORT_INT then
    let retval := copy_from_be s 2
    if s.headD 0 &&& 0x80 ≠ 0 then
      let _tmp := fix_sign (toLeBytes8 retval) 2
      (Except.ok (), retval)
    else if retval = 0 then (Except.error "Value is null", ret)
    else
      let _tmp := set_sign (toLeBytes8 retval) 2
      (Except.ok (), retval)
  else if field_type = PX_FIELD_TYPE_LONG_INT ∨ field_type = PX_FIELD_TYPE_INCREMENTAL then
    let retval := copy_from_be s 4
    if s.headD 0 &&& 0x80 ≠ 0 then
      let _tmp := fix_sign (toLeBytes8 retval) 4
      (Except.ok (), retval)
    else if retval = 0 then (Except.error "Value is null", ret)
    else
      let _tmp := set_sign (toLeBytes8 retval) 4
      (Except.ok (), retval)
  else (Except.error "Unsupported type", ret)

/-- src/convert.rs `px_to_double`, modelled at the level of IEEE-754 bit
patterns: `ret` and the second result component are the bit patterns of the
`f64` out-parameter before and after the call.  The only floating-point
operation in the source is the comparison `retval == 0.0`, which holds
exactly for the two zero bit patterns `0` and `2^63` (-0.0).

Faithfulness notes, visible in the Rust source:
* `let mut d = retval.to_le_bytes();` captures the bytes of the initial
  value `0f64` before `retval` is overwritten, so `d` is the all-zero
  buffer when the negative branch XORs it with `0xff`.
* `fix_sign(&mut retval.to_le_bytes(), 8)` mutates a temporary. -/
def px_to_double (number : Nat) (ret : Nat) (field_type : Nat) :
    Except String Unit × Nat :=
  let s := toLeBytes8 number
  let d := toLeBytes8 0
  if field_type = PX_FIELD_TYPE_CURRENCY ∨ field_type = PX_FIELD_TYPE_NUMBER then
    let retval := copy_from_be s 8
    if s.headD 0 &&& 0x80 ≠ 0 then
      let _tmp := fix_sign (toLeBytes8 retval) 8
      (Except.ok (), retval)
    else if retval = 0 ∨ retval = 2 ^ 63 then (Except.error "Value is null", ret)
    else
      let d2 := d.map (fun x => x ^^^ 0xff)
      (Except.ok (), leVal d2)
  else (Except.error "Unsupported type", ret)

/-- The fields of the C `tm` structure written by `px_to_tm` (directly or
through `gmtime`).  The further libc fields are never read by the decoder
and are elided. -/
structure Tm where
  tm_sec : Int := 0
  tm_min : Int := 0
  tm_hour : Int := 0
  tm_mday : Int := 0
  tm_mon : Int := 0
  tm_year : Int := 0
deriving DecidableEq

/-- src/convert.rs `gdate`: Julian-day to Gregorian conversion, using Rust
`i64` division semantics (`Int.tdiv`/`Int.tmod` truncate toward zero like
Rust `/` and `%`).  The shadowed `let` chain of the source is rendered with
numbered names.  The final `as i32` casts are omitted: for every Julian day
reachable from a 32-bit date field the results fit in `i32`. -/
def gdate (jd : Nat) : Int × Int × Int :=
  let jd1 : Int := (jd : Int) - 1721119
  let j := Int.tdiv (4 * jd1 - 1) 146097
  let jd2 := Int.tmod (4 * jd1 - 1) 146097
  let t1 := Int.tdiv jd2 4
  let jd3 := Int.tdiv (4 * t1 + 3) 1461
  let t2 := Int.tmod (4 * t1 + 3) 1461
  let t3 := Int.tdiv (t2 + 4) 4
  let m := Int.tdiv (5 * t3 - 3) 153
  let t4 := Int.tmod (5 * t3 - 3) 153
  let t5 := Int.tdiv (t4 + 5) 5
  let y := 100 * j + jd3
  if m < 10 then (y, m + 3, t5) else (y + 1, m - 9, t5)

/-- Modelled from the spec: `libc::gmtime` is an external C-library routine
not present in the repository ("convert the result (seconds since a
standard reference epoch) via a standard civil-calendar routine").
Modelled as the standard civil-from-days algorithm applied to the Unix
epoch, plus the `%60`/`/60` decomposition of the seconds within the day. -/
def gmtime (t : Int) : Tm :=
  let days := Int.fdiv t 86400
  let rem := (t - 86400 * days).toNat
  let z := days + 719468
  let era := Int.fdiv z 146097
  let doe := (z - era * 146097).toNat
  let yoe := (doe - doe / 1460 + doe / 36524 - doe / 146096) / 365
  let y : Int := (yoe : Int) + era * 400
  let doy := doe - (365 * yoe + yoe / 4 - yoe / 100)
  let mp := (5 * doy + 2) / 153
  let d := doy - (153 * mp + 2) / 5 + 1
  let m : Int := (mp : Int) + (if mp < 10 then 3 else -9)
  { tm_sec := (rem % 60 : Nat), tm_min := (rem / 60 % 60 : Nat),
    tm_hour := (rem / 3600 : Nat), tm_mday := (d : Nat),
    tm_mon := m - 1, tm_year := (if m ≤ 2 then y + 1 else y) - 1900 }

/-- src/convert.rs `px_to_tm`.  `tm` is the `libc::tm` out-parameter before
the call; the second result component is its value after the call.

Faithfulness notes, visible in the Rust source:
* In the DATE arm the `if`/`else if` chain only filters the null case; in
  both non-null cases control falls through to the date conversion, so the
  conversion is guarded by the single condition rendered below.
* In the TIME and TIMESTAMP arms all work happens inside the top-bit
  branch; in the top-bit-clear non-null case the function returns `Ok`
  with `tm` untouched.
* `fix_sign(&mut retval.to_le_bytes(), len)` mutates a temporary (no-op).
* `retval as i64` cannot wrap in the TIMESTAMP arm: the value has been
  shifted right by 8 and divided by 500 first. -/
def px_to_tm (number : Nat) (tm : Tm) (field_type : Nat) :
    Except String Unit × Tm :=
  let s := toLeBytes8 number
  let _d := toLeBytes8 0
  if field_type = PX_FIELD_TYPE_DATE then
    let retval := copy_from_be s 4
    if s.headD 0 &&& 0x80 = 0 ∧ retval = 0 then (Except.error "Value is null", tm)
    else
      let jd := 719528 + retval - 1
      let ymd := gdate jd
      (Except.ok (),
        { tm with tm_year := ymd.1 - 1900, tm_mon := ymd.2.1 - 1, tm_mday := ymd.2.2 })
  else if field_type = PX_FIELD_TYPE_TIME then
    let retval := copy_from_be s 4
    if s.headD 0 &&& 0x80 ≠ 0 then
      let _tmp := fix_sign (toLeBytes8 retval) 4
      let retval1 := retval / 1000
      let retval2 := retval1 / 60
      (Except.ok (),
        { tm with tm_sec := (retval1 % 60 : Nat), tm_min := (retval2 % 60 : Nat),
                  tm_hour := (retval2 / 60 : Nat) })
    else if retval = 0 then (Except.error "Value is null", tm)
    else (Except.ok (), tm)
  else if field_type = PX_FIELD_TYPE_TIMESTAMP then
    let retval := copy_from_be s 8
    if s.headD 0 &&& 0x80 ≠ 0 then
      let _tmp := fix_sign (toLeBytes8 retval) 8
      let retval1 := retval >>> 8
      let retval2 := retval1 / 500
      let t : Int := (retval2 : Int) - 37603860709183
      (Except.ok (), gmtime t)
    else if retval = 0 then (Except.error "Value is null", tm)
    else (Except.ok (), tm)
  else (Except.error "Unsupported type", tm)

/-- Outcome of src/convert.rs `px_memo_to_string` (`io::Result<Option<String>>`):
`ok none` is the NULL outcome `Ok(None)`, `ok (some bytes)` is a resolved
payload `Ok(Some(string))` kept as raw bytes (the source converts them to
UTF-8 text for display, substituting an empty string on invalid UTF-8),
`err msg` is `Err(..)` with the given message, and `crash` is an
out-of-bounds slice panic. -/
inductive MemoResult where
  | ok : Option (List Nat) → MemoResult
  | err : String → MemoResult
  | crash : MemoResult
deriving DecidableEq

/-- src/convert.rs `px_memo_to_string`.  `blob` and `size` are the inline
field bytes and the field size argument; `blobname` is the side file:
`none` when no side-file name was supplied, `some file` for the content of
the side file (modelling a successful `File::open`).  The file cursor is
threaded explicitly: after seeking to `offset` and reading the 9-byte
header the payload read starts at `offset + 9`.

Faithfulness notes, visible in the Rust source:
* the four trailer reads slice `blob[size-10..]`, `blob[size-6..]` and
  `blob[size-2..]` and copy 4, 4, 2 and 1 bytes; for `size ≥ 10` they all
  stay in bounds exactly when `size ≤ blob.len()`, hence the single
  `crash` guard;
* `index` is read from the same position as the low byte of `offset`,
  which is then masked with `0xffffff00`;
* `read_exact` fails with an UnexpectedEof error ("failed to fill whole
  buffer") when fewer bytes remain than requested;
* the `type_ != 0x02` and `length` mismatch checks share one error value. -/
def px_memo_to_string (blob : List Nat) (size : Nat)
    (blobname : Option (List Nat)) : MemoResult :=
  if size < 10 then MemoResult.ok none
  else if blob.length < size then MemoResult.crash
  else
    let offset0 := copy_from_le (blob.drop (size - 10)) 4
    let length := copy_from_le (blob.drop (size - 6)) 4
    let _mod_number := copy_from_le (blob.drop (size - 2)) 2
    let index := copy_from_le (blob.drop (size - 10)) 1
    let offset := offset0 &&& 0xffffff00
    if index = 0x00 then MemoResult.ok none
    else
      match blobname with
      | some file =>
        if index = 0xff then
          if file.length < offset + 9 then MemoResult.err "failed to fill whole buffer"
          else
            let header := (file.drop offset).take 9
            let type_ := copy_from_le header 1
            let _size_div_4k := copy_from_le (header.drop 1) 2
            let idx_length := copy_from_le (header.drop 3) 4
            let _mod_count := copy_from_le (header.drop 7) 2
            if type_ ≠ 0x02 ∨ idx_length ≠ length then
              MemoResult.err "Type 02 blob length mismatch"
            else if file.length < offset + 9 + length then
              MemoResult.err "failed to fill whole buffer"
            else MemoResult.ok (some ((file.drop (offset + 9)).take length))
        else
          -- the type-03 branch of the source is an empty TODO block; control
          -- falls through to the final Ok(None)
          MemoResult.ok none
      | none => MemoResult.ok none

/-- The fields of src/types.rs `PxHeader` in declaration order (all scalar
fields as natural numbers; the trailing table-name text as bytes). -/
structure PxHeaderM where
  record_size : Nat := 0
  header_size : Nat := 0
  file_type : Nat := 0
  max_table_size : Nat := 0
  num_records : Nat := 0
  used_blocks : Nat := 0
  file_blocks : Nat := 0
  first_block : Nat := 0
  last_block : Nat := 0
  dummy_1 : Nat := 0
  modified_flags1 : Nat := 0
  index_field_number : Nat := 0
  primary_index_workspace : Nat := 0
  dummy_2 : Nat := 0
  index_root_block : Nat := 0
  index_levels : Nat := 0
  num_fields : Nat := 0
  primary_key_fields : Nat := 0
  encryption1 : Nat := 0
  sort_order : Nat := 0
  modified_flags2 : Nat := 0
  dummy_5 : Nat := 0
  change_count1 : Nat := 0
  change_count2 : Nat := 0
  dummy_6 : Nat := 0
  table_name_ptr : Nat := 0
  field_info : Nat := 0
  write_protected : Nat := 0
  file_version_id : Nat := 0
  max_blocks : Nat := 0
  dummy_7 : Nat := 0
  aux_passwords : Nat := 0
  dummy_8 : Nat := 0
  crypt_info_start : Nat := 0
  crypt_info_end : Nat := 0
  dummy_9 : Nat := 0
  auto_inc : Nat := 0
  dummy_a : Nat := 0
  index_update_required : Nat := 0
  dummy_b : Nat := 0
  dummy_c : Nat := 0
  ref_integrity : Nat := 0
  dummy_d : Nat := 0
  file_version_id2 : Nat := 0
  file_version_id3 : Nat := 0
  encryption2 : Nat := 0
  file_update_time : Nat := 0
  hi_field_id : Nat := 0
  hi_field_id_info : Nat := 0
  sometimes_num_fields : Nat := 0
  dos_global_code_page : Nat := 0
  dummy_e : Nat := 0
  change_count4 : Nat := 0
  dummy_f : Nat := 0
  dummy_10 : Nat := 0
  table_name : List Nat := []
deriving DecidableEq

/-- src/parse.rs `parse_header`: the `head_copy!` macro calls
`copy_from_le(&mut header.field, &unp_head[i..], size_of::<PxHeader>())`
and then advances `i` by `size_of::<PxHeader>()`, so field number `k` is
read at offset `k * sz` with width `sz`, where `sz` is the byte size of
the whole `PxHeader` struct (not of the field).  `sz` is kept as a
parameter; any value above 8 overflows the helper's 8-byte scratch buffer
and panics (modelled by `none`).

Read `k` (for `k ≤ 42`) panics unless `sz ≤ 8` (the scratch buffer bound
`buf[..sz]`) and `(k + 1) * sz ≤ unp_head.length` (the source bounds
`&unp_head[k*sz..]` and `src[..sz]`); the reads are attempted in order, so
the whole sequence completes exactly when `sz ≤ 8 ∧ 43 * sz ≤
unp_head.length`, the condition guarding the construction below. -/
def parse_header (unp_head : List Nat) (sz : Nat) : Option PxHeaderM :=
  let rd := fun k => copy_from_le (unp_head.drop (k * sz)) sz
  if sz ≤ 8 ∧ 43 * sz ≤ unp_head.length then
    some
    { record_size := rd 0, header_size := rd 1, file_type := rd 2,
      max_table_size := rd 3, num_records := rd 4, used_blocks := rd 5,
      file_blocks := rd 6, first_block := rd 7, last_block := rd 8,
      dummy_1 := rd 9, modified_flags1 := rd 10,
      index_field_number := rd 11, primary_index_workspace := rd 12,
      dummy_2 := rd 13, index_root_block := rd 14, index_levels := rd 15,
      num_fields := rd 16, primary_key_fields := rd 17,
      encryption1 := rd 18, sort_order := rd 19, modified_flags2 := rd 20,
      dummy_5 := rd 21, change_count1 := rd 22, change_count2 := rd 23,
      dummy_6 := rd 24, table_name_ptr := rd 25, field_info := rd 26,
      write_protected := rd 27, file_version_id := rd 28,
      max_blocks := rd 29, dummy_7 := rd 30, aux_passwords := rd 31,
      dummy_8 := rd 32, crypt_info_start := rd 33,
      crypt_info_end := rd 34, dummy_9 := rd 35, auto_inc := rd 36,
      dummy_a := rd 37, index_update_required := rd 38, dummy_b := rd 39,
      dummy_c := rd 40, ref_integrity := rd 41, dummy_d := rd 42 }
  else none

/-- src/parse.rs `parse_header_v4`: same `head_copy!` macro over the
0x20-byte extension region, merging twelve further fields into the header
already produced by `parse_header`; the twelve reads complete exactly when
`sz ≤ 8 ∧ 12 * sz ≤ unp_head.length` (see `parse_header`). -/
def parse_header_v4 (h : PxHeaderM) (unp_head : List Nat) (sz : Nat) :
    Option PxHeaderM :=
  let rd := fun k => copy_from_le (unp_head.drop (k * sz)) sz
  if sz ≤ 8 ∧ 12 * sz ≤ unp_head.length then
    some
    { h with file_version_id2 := rd 0, file_version_id3 := rd 1,
             encryption2 := rd 2, file_update_time := rd 3,
             hi_field_id := rd 4, hi_field_id_info := rd 5,
             sometimes_num_fields := rd 6, dos_global_code_page := rd 7,
             dummy_e := rd 8, change_count4 := rd 9, dummy_f := rd 10,
             dummy_10 := rd 11 }
  else none

/-- src/parse.rs `is_header_supported`, with the lines the function prints
to stderr returned alongside the boolean (the numeric values interpolated
into the warning are elided from the message text). -/
def is_header_supported (h : PxHeaderM) : Bool × List String :=
  if ¬ (0x03 ≤ h.file_version_id ∧ h.file_version_id ≤ 0x0c) then
    (false, ["Unknown Fileversion ID"])
  else if ¬ h.file_type ≤ 0x08 then
    (false, ["Unknown FileType ID"])
  else if 0 < h.num_records ∧ h.first_block ≠ 1 then
    (true, ["Warning: numRecords > 0 && firstBlock != 1"])
  else (true, [])

/-- src/types.rs / src/parse.rs `PxFieldInfo` (name kept as bytes). -/
structure PxFieldInfoM where
  name : List Nat := []
  field_type : Nat := 0
  size : Nat := 0
deriving DecidableEq

/-- Outcome of src/parse.rs `parse_complete_header`: a decoded header with
its field table, an I/O error (`read_exact` on a truncated source), the
"Unsupported header" rejection, or a runtime panic. -/
inductive HeaderResult where
  | success : PxHeaderM → List PxFieldInfoM → HeaderResult
  | ioError : HeaderResult
  | unsupported : HeaderResult
  | crash : HeaderResult
deriving DecidableEq

/-- The field-descriptor loop of src/parse.rs `parse_complete_header`:
reads `n` two-byte `(type, size)` pairs starting at `pos`.  Each iteration
builds the placeholder name with
`"asdf".to_string().into_bytes().try_into().unwrap()`, converting a 4-byte
vector into `[u8; 80]`; that conversion fails and the `unwrap` panics, so
any iteration that gets past its `read_exact` crashes and the loop can
only complete when `n = 0`. -/
def parse_fields (file : List Nat) (pos n : Nat) :
    Option (Option (List PxFieldInfoM × Nat)) :=
  match n with
  | 0 => some (some ([], pos))
  | Nat.succ _ =>
    if file.length < pos + 2 then some none  -- read_exact fails: io error
    else none                                 -- try_into().unwrap() panics

/-- src/parse.rs `parse_complete_header` over an in-memory source:
reads the fixed 0x58-byte region, maps it through `parse_header` (with the
erroneous `size_of::<PxHeader>()` width `sz`), validates with
`is_header_supported`, conditionally reads the 0x20-byte version-4
extension, then the field descriptors and the 79-byte table name. -/
def parse_complete_header (file : List Nat) (sz : Nat) : HeaderResult :=
  if file.length < 0x58 then HeaderResult.ioError
  else
    match parse_header (file.take 0x58) sz with
    | none => HeaderResult.crash
    | some h =>
      if (is_header_supported h).1 = false then HeaderResult.unsupported
      else
        let step2 :=
          if 0x05 ≤ h.file_version_id ∧ h.file_type ≠ 0x01 ∧
              h.file_type ≠ 0x04 ∧ h.file_type ≠ 0x07 then
            if file.length < 0x58 + 0x20 then none
            else (parse_header_v4 h ((file.drop 0x58).take 0x20) sz).map
                   (fun h2 => (h2, 0x58 + 0x20))
          else some (h, 0x58)
        match step2 with
        | none =>
          -- either the extension read_exact failed or parse_header_v4
          -- panicked; with sz > 8 only the panic is reachable here
          if file.length < 0x58 + 0x20 then HeaderResult.ioError
          else HeaderResult.crash
        | some (h2, pos) =>
          match parse_fields file pos h2.num_fields with
          | some none => HeaderResult.ioError
          | none => HeaderResult.crash
          | some (some (fields, pos2)) =>
            if file.length < pos2 + 79 then HeaderResult.ioError
            else HeaderResult.success
                   { h2 with table_name := (file.drop pos2).take 79 } fields

/-- src/types.rs `PxBlocks` (the dangling `records` pointer is elided). -/
structure PxBlocksM where
  prev_block : Nat := 0
  next_block : Nat := 0
  num_recs_in_block : Nat := 0
deriving DecidableEq

/-- The `while fd.read(&mut block_buf)? > 0` loop of src/parse.rs
`parse_blocks`.  `data` is the unread remainder of the source and `buf`
the reusable block buffer; a read returns `min buf.length data.length`
bytes, which overwrite the front of the buffer (a short final read leaves
the stale tail of the previous block in place, exactly as in the Rust
buffer reuse).  `next_block` is read from bytes 0-1 and `prev_block` from
bytes 2-3 of the buffer; `num_recs_in_block` is the constant 0 of the
source. -/
def parse_blocks_loop (data buf : List Nat) (acc : List PxBlocksM) :
    List PxBlocksM :=
  let n := min buf.length data.length
  if n = 0 then acc.reverse
  else
    let buf2 := data.take n ++ buf.drop n
    let next_block := copy_from_le buf2 2
    let prev_block := copy_from_le (buf2.drop 2) 2
    parse_blocks_loop (data.drop n) buf2
      ({ prev_block := prev_block, next_block := next_block,
         num_recs_in_block := 0 } :: acc)
termination_by data.length
decreasing_by simp only [List.length_drop]; omega

/-- src/parse.rs `parse_blocks`: repeatedly reads blocks of
`0x400 * header.max_table_size` bytes from the data region. -/
def parse_blocks (data : List Nat) (max_table_size : Nat) : List PxBlocksM :=
  parse_blocks_loop data (List.replicate (0x400 * max_table_size) 0) []

/-! Named projections of the inline blob trailer and of the side-file
block header, restating (definitionally equal to) the corresponding
`copy_from_le` reads inside `px_memo_to_string`; they name the
`BlobDescriptor` and `SideFileBlockHeader` fields for use in theorem
statements. -/

/-- The descriptor offset, low byte masked (`offset &= 0xffffff00`). -/
def blobOffset (blob : List Nat) (size : Nat) : Nat :=
  copy_from_le (blob.drop (size - 10)) 4 &&& 0xffffff00

/-- The descriptor payload length (4 bytes at `size - 6`). -/
def blobLength (blob : List Nat) (size : Nat) : Nat :=
  copy_from_le (blob.drop (size - 6)) 4

/-- The descriptor sub-index (1 byte at `size - 10`). -/
def blobIndex (blob : List Nat) (size : Nat) : Nat :=
  copy_from_le (blob.drop (size - 10)) 1

/-- The side-file block header type tag (byte 0 of the 9-byte header). -/
def sideHeaderType (file : List Nat) (off : Nat) : Nat :=
  copy_from_le ((file.drop off).take 9) 1

/-- The side-file block header payload length (4 bytes at offset 3). -/
def sideHeaderLength (file : List Nat) (off : Nat) : Nat :=
  copy_from_le (((file.drop off).take 9).drop 3) 4

/-- Number of blocks produced by the read loop of `parse_blocks`: one per
read of `min buf.length data.length > 0` bytes, i.e. the ceiling of
`data.length / bs` for a buffer of size `bs > 0`. -/
theorem parse_blocks_loop_length (bs : Nat) :
    ∀ (L : Nat) (data buf : List Nat) (acc : List PxBlocksM),
      data.length ≤ L → buf.length = bs → 0 < bs →
      (parse_blocks_loop data buf acc).length
        = acc.length + (data.length + bs - 1) / bs := by
  intro L
  induction L with
  | zero =>
    intro data buf acc hL hbuf hbs
    have hn : min buf.length data.length = 0 := by omega
    rw [parse_blocks_loop, if_pos hn, List.length_reverse]
    have hz : (data.length + bs - 1) / bs = 0 := Nat.div_eq_of_lt (by omega)
    omega
  | succ K ih =>
    intro data buf acc hL hbuf hbs
    by_cases hn : min buf.length data.length = 0
    · rw [parse_blocks_loop, if_pos hn, List.length_reverse]
      have hz : (data.length + bs - 1) / bs = 0 := Nat.div_eq_of_lt (by omega)
      omega
    · have hn1 : 1 ≤ min buf.length data.length := Nat.one_le_iff_ne_zero.mpr hn
      have hnd : min buf.length data.length ≤ data.length := Nat.min_le_right _ _
      have hnb : min buf.length data.length ≤ bs := hbuf ▸ Nat.min_le_left _ _
      have hrec := ih (data.drop (min buf.length data.length))
        (data.take (min buf.length data.length) ++ buf.drop (min buf.length data.length))
        ({ prev_block :=
             copy_from_le ((data.take (min buf.length data.length) ++
               buf.drop (min buf.length data.length)).drop 2) 2,
           next_block :=
             copy_from_le (data.take (min buf.length data.length) ++
               buf.drop (min buf.length data.length)) 2,
           num_recs_in_block := 0 } :: acc)
        (by simp only [List.length_drop]; omega)
        (by simp only [List.length_append, List.length_take, List.length_drop]; omega)
        hbs
      rw [parse_blocks_loop, if_neg hn, hrec]
      have key1 : (data.length - min buf.length data.length + bs - 1) / bs
          = (data.length - 1) / bs := by
        rcases Nat.le_total bs data.length with hc | hc
        · have heq : data.length - min buf.length data.length + bs - 1
              = data.length - 1 := by omega
          rw [heq]
        · have heq : data.length - min buf.length data.length + bs - 1 = bs - 1 := by
            omega
          rw [heq, Nat.div_eq_of_lt (by omega), Nat.div_eq_of_lt (by omega)]
      have key2 : (data.length + bs - 1) / bs = (data.length - 1) / bs + 1 := by
        have heq : data.length + bs - 1 = (data.length - 1) + bs := by omega
        rw [heq, Nat.add_div_right _ hbs]
      simp only [List.length_drop, List.length_cons, key1, key2]
      omega

/-- A 0x58-byte fixed header region whose file_version byte (offset 0x39)
is 0x04 and whose file_type byte (offset 0x04) is 0x00: well-formed
according to the supported ranges. -/
def wellFormedHeaderBuf : List Nat :=
  List.replicate 0x39 0 ++ [0x04] ++ List.replicate 0x1e 0

/-- C1: the claim says the sign-biased big-endian pattern 0x80000005
decodes to 5 as a LongInt (and 0x7FFFFFFB to -5).  On the code this is
false: `copy_from_be` performs no byte reversal and
`fix_sign`/`set_sign` are applied to the temporary array returned by
`to_le_bytes()` and never written back, so the decoder returns the biased
bit pattern unchanged.  Both conventions for loading the 4 stored bytes
80 00 00 05 into the `u64` argument are evaluated: as the little-endian
load of the stored byte order (`number = 0x05000080`, so that `s[0]` is
the stored most-significant byte the code tests) and as the numeric value
`number = 0x80000005`; neither yields 5. -/
theorem c1_sign_bias_not_decoded :
    px_to_long 0x05000080 0 PX_FIELD_TYPE_LONG_INT
      = (Except.ok (), 0x05000080) ∧
    px_to_long 0x80000005 0 PX_FIELD_TYPE_LONG_INT
      = (Except.ok (), 0x80000005) := ⟨rfl, rfl⟩

/-- C2: for every field type handled by the value codec (Logical width 1,
ShortInt width 2, LongInt/Incremental width 4, Currency/Number width 8,
Date/Time width 4, Timestamp width 8), the all-zero field (`number = 0`)
decodes to the distinguished null outcome `Err("Value is null")`, the
out-parameter keeps its previous value (it is not coerced to zero), and
the error outcome is distinct from every `Ok` value. -/
theorem c2_all_zero_is_null (ret : Nat) (tm : Tm) :
    px_to_long 0 ret PX_FIELD_TYPE_LOGICAL = (Except.error "Value is null", ret) ∧
    px_to_long 0 ret PX_FIELD_TYPE_SHORT_INT = (Except.error "Value is null", ret) ∧
    px_to_long 0 ret PX_FIELD_TYPE_LONG_INT = (Except.error "Value is null", ret) ∧
    px_to_long 0 ret PX_FIELD_TYPE_INCREMENTAL = (Except.error "Value is null", ret) ∧
    px_to_double 0 ret PX_FIELD_TYPE_CURRENCY = (Except.error "Value is null", ret) ∧
    px_to_double 0 ret PX_FIELD_TYPE_NUMBER = (Except.error "Value is null", ret) ∧
    px_to_tm 0 tm PX_FIELD_TYPE_DATE = (Except.error "Value is null", tm) ∧
    px_to_tm 0 tm PX_FIELD_TYPE_TIME = (Except.error "Value is null", tm) ∧
    px_to_tm 0 tm PX_FIELD_TYPE_TIMESTAMP = (Except.error "Value is null", tm) ∧
    ∀ u : Unit, (Except.error "Value is null" : Except String Unit) ≠ Except.ok u :=
  ⟨rfl, rfl, rfl, rfl, rfl, rfl, rfl, rfl, rfl, fun _ h => nomatch h⟩

/-- C3: the claim says the positive branch reinterprets the bias-cleared
bytes and the negative branch reinterprets the bitwise NOT of the stored
bytes.  On the code this is false: for `number = 1` (top bit of the
tested byte clear, so the negative branch) the result bits are
0xFFFFFFFFFFFFFFFF — the XOR is applied to the stale all-zero buffer `d`
captured before the value was read, not to the stored bytes (whose NOT
would be 0xFFFFFFFFFFFFFFFE) — and for `number = 0x80` (top bit set) the
result keeps the bias bit (0x80 instead of the cleared 0x00) because
`fix_sign` mutates a temporary. -/
theorem c3_double_branches_broken :
    px_to_double 1 0 PX_FIELD_TYPE_NUMBER
      = (Except.ok (), 0xFFFFFFFFFFFFFFFF) ∧
    px_to_double 0x80 0 PX_FIELD_TYPE_NUMBER = (Except.ok (), 0x80) := ⟨rfl, rfl⟩

/-- C4: the claim says header decode succeeds for supported
version/type values on a well-formed fixed-region buffer.  On the code
this is false for every buffer: the `head_copy!` macro passes
`size_of::<PxHeader>()` (at least the 0x78 bytes of scalar fields, and in
any case more than 8) as the copy width, so the very first field read
slices the 8-byte scratch buffer out of bounds and panics before any
validation runs.  For every source of the expected fixed-region length
and every struct size above 8, `parse_complete_header` crashes. -/
theorem c4_parse_header_always_crashes (file : List Nat) (sz : Nat)
    (hsz : 8 < sz) (hlen : 0x58 ≤ file.length) :
    parse_complete_header file sz = HeaderResult.crash := by
  unfold parse_complete_header
  rw [if_neg (by omega)]
  have h : parse_header (file.take 0x58) sz = none := by
    unfold parse_header
    rw [if_neg]
    intro hc
    omega
  rw [h]

/-- Witness for C4: the crash at a concrete well-formed 0x58-byte header
region (file_version 0x04, file_type 0x00) with the struct size 144. -/
theorem c4_parse_header_always_crashes_witness :
    parse_complete_header wellFormedHeaderBuf 144 = HeaderResult.crash :=
  c4_parse_header_always_crashes wellFormedHeaderBuf 144 (by decide) (by decide)

/-- C5 counterexample: the claim says the walker yields
floor(length / block_size) blocks and discards a trailing partial block.
Over a source of 3073 = 3 * 1024 + 1 bytes with block size 1024
(`max_table_size = 1`) the loop yields 4 blocks, not floor(3073/1024) = 3:
the final 1-byte read is positive, so the partial block is yielded. -/
theorem c5_partial_block_counterexample :
    (parse_blocks (List.replicate 3073 0) 1).length = 4 ∧ 3073 / 1024 = 3 := by
  constructor
  · have h := parse_blocks_loop_length 1024 3073 (List.replicate 3073 0)
      (List.replicate 1024 0) []
      (by simp only [List.length_replicate, le_refl])
      (by simp only [List.length_replicate]) (by omega)
    unfold parse_blocks
    have e : 0x400 * 1 = 1024 := by norm_num
    rw [e, h]
    simp only [List.length_nil, List.length_replicate]
  · rfl

/-- C5 as amended: the walker yields ceil(length / block_size) blocks —
exactly 3 over a source of exactly 3 blocks, but one extra block over a
source with a trailing partial block. -/
theorem c5_block_count_is_ceil (data : List Nat) (mts : Nat) (hm : 0 < mts) :
    (parse_blocks data mts).length
      = (data.length + 0x400 * mts - 1) / (0x400 * mts) := by
  have h := parse_blocks_loop_length (0x400 * mts) data.length data
    (List.replicate (0x400 * mts) 0) [] le_rfl
    (by simp only [List.length_replicate]) (by omega)
  unfold parse_blocks
  rw [h]
  simp only [List.length_nil, Nat.zero_add]

/-- Witness for C5: a source of exactly two blocks yields two blocks. -/
theorem c5_block_count_is_ceil_witness :
    (parse_blocks (List.replicate 2048 (0 : Nat)) 1).length
      = ((List.replicate 2048 (0 : Nat)).length + 0x400 * 1 - 1) / (0x400 * 1) :=
  c5_block_count_is_ceil (List.replicate 2048 (0 : Nat)) 1 (by decide)

/-- C6 counterexample: the claim says a sub-index that is neither 0x00 nor
0xFF produces a distinct `Unresolved` outcome, not NULL.  On the code this
is false: the type-03 branch is an empty TODO block and control falls
through to `Ok(None)`, the same value returned for the genuinely-null
sub-index 0 descriptor, so the two cases are indistinguishable. -/
theorem c6_unresolved_counterexample :
    px_memo_to_string [3, 0, 0, 0, 5, 0, 0, 0, 0, 0] 10 (some [9, 9, 9])
      = MemoResult.ok none ∧
    px_memo_to_string [0, 0, 0, 0, 5, 0, 0, 0, 0, 0] 10 (some [9, 9, 9])
      = MemoResult.ok none := ⟨rfl, rfl⟩

/-- C6 as amended: for every descriptor whose sub-index is neither 0x00
nor 0xFF, blob resolution returns the NULL outcome `Ok(None)` (identical
to the absent-value outcome); no distinct Unresolved outcome exists in
the code. -/
theorem c6_other_subindex_yields_null (blob : List Nat) (size : Nat)
    (bn : Option (List Nat)) (h10 : 10 ≤ size) (hlen : size ≤ blob.length)
    (hne0 : blobIndex blob size ≠ 0) (hneff : blobIndex blob size ≠ 0xff) :
    px_memo_to_string blob size bn = MemoResult.ok none := by
  unfold blobIndex at hne0 hneff
  simp only [px_memo_to_string]
  rw [if_neg (by omega), if_neg (by omega), if_neg hne0]
  cases bn with
  | none => rfl
  | some file =>
    dsimp only
    rw [if_neg hneff]

/-- Witness for C6 as amended: the sub-index 3 descriptor. -/
theorem c6_other_subindex_yields_null_witness :
    px_memo_to_string [3, 0, 0, 0, 5, 0, 0, 0, 0, 0] 10 (some [1, 2])
      = MemoResult.ok none :=
  c6_other_subindex_yields_null [3, 0, 0, 0, 5, 0, 0, 0, 0, 0] 10 (some [1, 2])
    (by decide) (by decide) (by decide) (by decide)

/-- C7: in the sub-index 0xFF path (with the 9-byte side-file header
readable at the masked offset), a type tag other than 2 or a header
payload length different from the descriptor length yields the error
outcome with no bytes, and otherwise exactly `payload_length` bytes
starting right after the 9-byte header are returned as the payload.
(The source uses one shared `io::Error` value, with message
"Type 02 blob length mismatch", for both failure conditions.) -/
theorem c7_type2_block_resolution (blob : List Nat) (size : Nat)
    (file : List Nat) (h10 : 10 ≤ size) (hlen : size ≤ blob.length)
    (hidx : blobIndex blob size = 0xff)
    (hhdr : blobOffset blob size + 9 ≤ file.length) :
    (sideHeaderType file (blobOffset blob size) ≠ 0x02 ∨
        sideHeaderLength file (blobOffset blob size) ≠ blobLength blob size →
      px_memo_to_string blob size (some file)
        = MemoResult.err "Type 02 blob length mismatch") ∧
    (sideHeaderType file (blobOffset blob size) = 0x02 →
      sideHeaderLength file (blobOffset blob size) = blobLength blob size →
      blobOffset blob size + 9 + blobLength blob size ≤ file.length →
      px_memo_to_string blob size (some file)
        = MemoResult.ok (some ((file.drop (blobOffset blob size + 9)).take
            (blobLength blob size))) ∧
      ((file.drop (blobOffset blob size + 9)).take
          (blobLength blob size)).length = blobLength blob size) := by
  have hC : ¬ copy_from_le (List.drop (size - 10) blob) 1 = 0 := by
    unfold blobIndex at hidx; omega
  have hD : copy_from_le (List.drop (size - 10) blob) 1 = 0xff := by
    unfold blobIndex at hidx; exact hidx
  have hE : ¬ file.length <
      (copy_from_le (List.drop (size - 10) blob) 4 &&& 0xffffff00) + 9 := by
    unfold blobOffset at hhdr; omega
  have hbase : px_memo_to_string blob size (some file)
      = (if sideHeaderType file (blobOffset blob size) ≠ 0x02 ∨
            sideHeaderLength file (blobOffset blob size) ≠ blobLength blob size
         then MemoResult.err "Type 02 blob length mismatch"
         else if file.length < blobOffset blob size + 9 + blobLength blob size
         then MemoResult.err "failed to fill whole buffer"
         else MemoResult.ok (some ((file.drop (blobOffset blob size + 9)).take
                (blobLength blob size)))) := by
    simp only [px_memo_to_string]
    rw [if_neg (by omega), if_neg (by omega), if_neg hC, if_pos hD, if_neg hE]
    rfl
  constructor
  · intro hmm
    rw [hbase, if_pos hmm]
  · intro ht hl hroom
    rw [hbase, if_neg (by simp only [not_or, not_not]; exact ⟨ht, hl⟩),
      if_neg (by omega)]
    refine ⟨rfl, ?_⟩
    simp only [List.length_take, List.length_drop]
    omega

/-- Witness for C7: a matching type-2 block returns its 2-byte payload;
a block with type tag 3 fails with the shared mismatch error. -/
theorem c7_type2_block_resolution_witness :
    px_memo_to_string [0xff, 0, 0, 0, 2, 0, 0, 0, 0, 0] 10
        (some [2, 0, 0, 2, 0, 0, 0, 0, 0, 0xAA, 0xBB])
      = MemoResult.ok (some [0xAA, 0xBB]) ∧
    px_memo_to_string [0xff, 0, 0, 0, 2, 0, 0, 0, 0, 0] 10
        (some [3, 0, 0, 2, 0, 0, 0, 0, 0, 0xAA, 0xBB])
      = MemoResult.err "Type 02 blob length mismatch" := by
  constructor
  · exact ((c7_type2_block_resolution [0xff, 0, 0, 0, 2, 0, 0, 0, 0, 0] 10
      [2, 0, 0, 2, 0, 0, 0, 0, 0, 0xAA, 0xBB] (by decide) (by decide)
      (by decide) (by decide)).2 (by decide) (by decide) (by decide)).1
  · exact (c7_type2_block_resolution [0xff, 0, 0, 0, 2, 0, 0, 0, 0, 0] 10
      [3, 0, 0, 2, 0, 0, 0, 0, 0, 0xAA, 0xBB] (by decide) (by decide)
      (by decide) (by decide)).1 (by decide)

/-- C8: blob resolution returns NULL with no side-file read when the
inline field is shorter than 10 bytes, and likewise when the parsed
descriptor sub-index is 0; in both cases the result is `Ok(None)` for
every side-file argument (including no side file at all), so no side-file
content can influence it. -/
theorem c8_short_or_zero_subindex_null (blob : List Nat) (size : Nat)
    (bn : Option (List Nat)) :
    (size < 10 → px_memo_to_string blob size bn = MemoResult.ok none) ∧
    (10 ≤ size → size ≤ blob.length → blobIndex blob size = 0 →
      px_memo_to_string blob size bn = MemoResult.ok none) := by
  constructor
  · intro h
    simp only [px_memo_to_string]
    rw [if_pos h]
  · intro h10 hlen hidx
    unfold blobIndex at hidx
    simp only [px_memo_to_string]
    rw [if_neg (by omega), if_neg (by omega), if_pos hidx]

/-- Witness for C8: a 9-byte inline field and a sub-index 0 descriptor,
both with a side file supplied. -/
theorem c8_short_or_zero_subindex_null_witness :
    px_memo_to_string [1, 2, 3] 9 (some [7]) = MemoResult.ok none ∧
    px_memo_to_string [0, 0, 0, 0, 5, 0, 0, 0, 0, 0] 10 (some [7])
      = MemoResult.ok none :=
  ⟨(c8_short_or_zero_subindex_null [1, 2, 3] 9 (some [7])).1 (by decide),
   (c8_short_or_zero_subindex_null [0, 0, 0, 0, 5, 0, 0, 0, 0, 0] 10
      (some [7])).2 (by decide) (by decide) (by decide)⟩

/-- C9: for every header that passes the version and file-type checks,
if `num_records > 0` and `first_block ≠ 1` the validator prints the
consistency warning and still returns true (the header is not
rejected). -/
theorem c9_first_block_warning_nonfatal (h : PxHeaderM)
    (h1 : 0x03 ≤ h.file_version_id) (h2 : h.file_version_id ≤ 0x0c)
    (h3 : h.file_type ≤ 0x08) (h4 : 0 < h.num_records)
    (h5 : h.first_block ≠ 1) :
    is_header_supported h
      = (true, ["Warning: numRecords > 0 && firstBlock != 1"]) := by
  unfold is_header_supported
  rw [if_neg (by omega), if_neg (by omega), if_pos ⟨h4, h5⟩]

/-- Witness for C9: version 0x04, file type 0x00, one record,
first block 2. -/
theorem c9_first_block_warning_nonfatal_witness :
    is_header_supported { file_version_id := 4, num_records := 1, first_block := 2 }
      = (true, ["Warning: numRecords > 0 && firstBlock != 1"]) :=
  c9_first_block_warning_nonfatal
    { file_version_id := 4, num_records := 1, first_block := 2 }
    (by decide) (by decide) (by decide) (by decide) (by decide)

/-- C10: whenever `px_to_long`, `px_to_double` or `px_to_tm` returns an
error (null value or unsupported field type), the out-parameter keeps
exactly the value it had before the call: the sources assign `*ret` (or
write into `*tm`) only on paths that return `Ok`. -/
theorem c10_error_atomicity (number ret : Nat) (tm : Tm) (field_type : Nat)
    (e : String) :
    ((px_to_long number ret field_type).1 = Except.error e →
      (px_to_long number ret field_type).2 = ret) ∧
    ((px_to_double number ret field_type).1 = Except.error e →
      (px_to_double number ret field_type).2 = ret) ∧
    ((px_to_tm number tm field_type).1 = Except.error e →
      (px_to_tm number tm field_type).2 = tm) := by
  refine ⟨?_, ?_, ?_⟩
  · simp only [px_to_long]
    repeat' split
    all_goals (intro hc; simp_all)
  · simp only [px_to_double]
    repeat' split
    all_goals (intro hc; simp_all)
  · simp only [px_to_tm]
    repeat' split
    all_goals (intro hc; simp_all)

/-- Witness for C10: null decodes of the all-zero field leave the
out-parameters 5, 6 and the zero-initialised `tm` unchanged. -/
theorem c10_error_atomicity_witness :
    (px_to_long 0 5 PX_FIELD_TYPE_LONG_INT).2 = 5 ∧
    (px_to_double 0 6 PX_FIELD_TYPE_CURRENCY).2 = 6 ∧
    (px_to_tm 0 {} PX_FIELD_TYPE_DATE).2 = ({} : Tm) :=
  ⟨(c10_error_atomicity 0 5 {} PX_FIELD_TYPE_LONG_INT "Value is null").1 rfl,
   (c10_error_atomicity 0 6 {} PX_FIELD_TYPE_CURRENCY "Value is null").2.1 rfl,
   (c10_error_atomicity 0 5 {} PX_FIELD_TYPE_DATE "Value is null").2.2 rfl⟩

end Pxrs
